import Mathlib

/-!
Verification development for the GitHub contact scraper (`app.py`).

The script's core is `extract_contacts`, which runs two Python regexes over a
text via `re.findall`:

  EMAIL_REGEX = [a-zA-Z0-9._%+-]+@[a-zA-Z0-9.-]+\.[a-zA-Z]\x7b2,\x7d
  PHONE_REGEX = (\+44\s?|0)\s?(7[0-9]\x7b2\x7d)\s?[-.\s]?\(?\d\x7b3\x7d\)?[-.\s]?\d\x7b3,4\x7d

Both patterns are linear sequences of single-character classes with counted,
optional or unbounded quantifiers (plus one top-level alternation in the phone
pattern's first group), so Python's backtracking semantics (leftmost match,
alternatives in written order, greedy quantifiers trying longest first) is
embedded exactly by `matchSeq` below: each element contributes its possible
consumption lengths in priority order and the first globally successful
assignment wins.  `re.findall` semantics: scan left to right, attempt a match
at every position, on success emit it and resume after the match; with two
capture groups the emitted value is the pair of group texts.  Characters are
modelled at ASCII level (the classes involved are ASCII; `re.IGNORECASE` is a
no-op for them since letter ranges already cover both cases).
-/

/-- Python `\s` (ASCII): space, tab, newline, carriage return, vertical tab, form feed. -/
def isSpaceAscii (c : Char) : Bool :=
  decide (c.toNat = 32 ∨ c.toNat = 9 ∨ c.toNat = 10 ∨ c.toNat = 13 ∨ c.toNat = 11 ∨ c.toNat = 12)

/-- Python `[0-9]` / `\d` (ASCII). -/
def isDigitChar (c : Char) : Bool := decide (48 ≤ c.toNat ∧ c.toNat ≤ 57)

/-- Python `[a-zA-Z]`. -/
def isAlphaChar (c : Char) : Bool :=
  decide ((65 ≤ c.toNat ∧ c.toNat ≤ 90) ∨ (97 ≤ c.toNat ∧ c.toNat ≤ 122))

/-- Class `[a-zA-Z0-9._%+-]`, the local part class of EMAIL_REGEX
(46 `.`, 95 `_`, 37 `%`, 43 `+`, 45 `-`). -/
def isLocalChar (c : Char) : Bool :=
  isAlphaChar c || isDigitChar c ||
    decide (c.toNat = 46 ∨ c.toNat = 95 ∨ c.toNat = 37 ∨ c.toNat = 43 ∨ c.toNat = 45)

/-- Class `[a-zA-Z0-9.-]`, the domain class of EMAIL_REGEX. -/
def isDomainChar (c : Char) : Bool :=
  isAlphaChar c || isDigitChar c || decide (c.toNat = 46 ∨ c.toNat = 45)

/-- Class `[-.\s]`, the separator class of PHONE_REGEX. -/
def isSepChar (c : Char) : Bool := decide (c.toNat = 45 ∨ c.toNat = 46) || isSpaceAscii c

/-- Literal `\(`. -/
def isOpenParen (c : Char) : Bool := decide (c.toNat = 40)

/-- Literal `\)`. -/
def isCloseParen (c : Char) : Bool := decide (c.toNat = 41)

/-- One element of a linear regular expression:
a literal character, a mandatory class character, an optional class character
(`X?`, greedy), or a counted/unbounded class repetition (`X+`, `X{m,n}`, greedy). -/
inductive RItem where
  | lit (c : Char)
  | cls (p : Char → Bool)
  | opt (p : Char → Bool)
  | rep (p : Char → Bool) (lo : Nat) (hi : Option Nat)

/-- Length of the maximal prefix of `s` whose characters all satisfy `p`. -/
def runLen (p : Char → Bool) : List Char → Nat
  | [] => 0
  | c :: cs => if p c then runLen p cs + 1 else 0

/-- The consumption lengths an item can take at the head of `s`, in Python's
backtracking priority order (greedy: longer first; `X?` tries 1 then 0). -/
def candidates : RItem → List Char → List Nat
  | RItem.lit c, s =>
      match s with
      | c' :: _ => if c' = c then [1] else []
      | [] => []
  | RItem.cls p, s =>
      match s with
      | c :: _ => if p c then [1] else []
      | [] => []
  | RItem.opt p, s =>
      match s with
      | c :: _ => if p c then [1, 0] else [0]
      | [] => [0]
  | RItem.rep p lo hi, s =>
      let top := match hi with
        | some m => min m (runLen p s)
        | none => runLen p s
      if top < lo then [] else (List.range (top + 1 - lo)).map (fun k => top - k)

/-- First success of `f` over a candidate list (backtracking priority). -/
def firstSome (f : Nat → Option α) : List Nat → Option α
  | [] => none
  | n :: ns =>
      match f n with
      | some a => some a
      | none => firstSome f ns

/-- Backtracking matcher for a linear sequence of items at the head of `s`,
returning the consumed chunk of each item for the priority-first global match.
This is exactly Python's strategy on such patterns: the first item tries its
consumptions in priority order, and for each of them the remainder of the
pattern is matched against the remainder of the string. -/
def matchSeq : List RItem → List Char → Option (List (List Char))
  | [], _ => some []
  | it :: rest, s =>
      firstSome (fun n => (matchSeq rest (s.drop n)).map (fun cks => s.take n :: cks))
        (candidates it s)

/-- EMAIL_REGEX as a linear item sequence. -/
def emailItems : List RItem :=
  [RItem.rep isLocalChar 1 none, RItem.lit '@', RItem.rep isDomainChar 1 none,
   RItem.lit '.', RItem.rep isAlphaChar 2 none]

/-- Match EMAIL_REGEX at the head of `s`; `re.findall` with no groups yields the
full match text, paired here with the consumed length. -/
def emailMatchAt (s : List Char) : Option (String × Nat) :=
  (matchSeq emailItems s).map (fun cks => (String.mk cks.flatten, cks.flatten.length))

/-- PHONE_REGEX, first alternative of group 1 (`\+44\s?`), as items.
Items 0-3 form group 1, item 4 is the ungrouped `\s?`, items 5-7 form group 2
(`7[0-9]\x7b2\x7d`), the rest is the ungrouped tail of the pattern. -/
def phoneItemsA : List RItem :=
  [RItem.lit '+', RItem.lit '4', RItem.lit '4', RItem.opt isSpaceAscii,
   RItem.opt isSpaceAscii, RItem.lit '7', RItem.cls isDigitChar, RItem.cls isDigitChar,
   RItem.opt isSpaceAscii, RItem.opt isSepChar, RItem.opt isOpenParen,
   RItem.cls isDigitChar, RItem.cls isDigitChar, RItem.cls isDigitChar,
   RItem.opt isCloseParen, RItem.opt isSepChar, RItem.rep isDigitChar 3 (some 4)]

/-- PHONE_REGEX, second alternative of group 1 (`0`), as items.
Item 0 is group 1, item 1 the ungrouped `\s?`, items 2-4 group 2. -/
def phoneItemsB : List RItem :=
  [RItem.lit '0', RItem.opt isSpaceAscii,
   RItem.lit '7', RItem.cls isDigitChar, RItem.cls isDigitChar,
   RItem.opt isSpaceAscii, RItem.opt isSepChar, RItem.opt isOpenParen,
   RItem.cls isDigitChar, RItem.cls isDigitChar, RItem.cls isDigitChar,
   RItem.opt isCloseParen, RItem.opt isSepChar, RItem.rep isDigitChar 3 (some 4)]

/-- Match PHONE_REGEX at the head of `s`.  Python tries the alternatives of
group 1 in written order; `re.findall` on a pattern with two groups yields the
pair of group texts, paired here with the consumed length of the full match. -/
def phoneMatchAt (s : List Char) : Option ((String × String) × Nat) :=
  match matchSeq phoneItemsA s with
  | some cks =>
      some ((String.mk (cks.take 4).flatten, String.mk ((cks.drop 5).take 3).flatten),
        cks.flatten.length)
  | none =>
      match matchSeq phoneItemsB s with
      | some cks =>
          some ((String.mk (cks.take 1).flatten, String.mk ((cks.drop 2).take 3).flatten),
            cks.flatten.length)
      | none => none

/-- Fuelled `re.findall` scan: attempt a match at every position, on success
emit it and resume after the consumed text.  Every emitted match of the two
patterns above consumes at least one character, so fuel `s.length` (supplied by
`scanAll`) never runs out before the string does. -/
def scanAllF (f : List Char → Option (α × Nat)) : Nat → List Char → List α
  | 0, _ => []
  | _ + 1, [] => []
  | fuel + 1, c :: cs =>
      match f (c :: cs) with
      | some (a, n) => a :: scanAllF f fuel (List.drop (n - 1) cs)
      | none => scanAllF f fuel cs

/-- Model of `re.findall` over a character list. -/
def scanAll (f : List Char → Option (α × Nat)) (s : List Char) : List α :=
  scanAllF f s.length s

/-- Model of `re.findall(EMAIL_REGEX, text, re.IGNORECASE)`. -/
def emailFindAll (s : List Char) : List String := scanAll emailMatchAt s

/-- Model of `re.findall(PHONE_REGEX, text, re.IGNORECASE)`: the list of group pairs. -/
def phoneFindAll (s : List Char) : List (String × String) := scanAll phoneMatchAt s

/-- A character survives `re.sub(r'[\s\-\(\)]', '', ...)` iff it is not
whitespace, `-` (45), `(` (40) or `)` (41). -/
def stripKeep (c : Char) : Bool :=
  !(isSpaceAscii c || decide (c.toNat = 45 ∨ c.toNat = 40 ∨ c.toNat = 41))

/-- Model of `re.sub(r'[\s\-\(\)]', '', s)`. -/
def stripPhoneChars (s : String) : String := String.mk (s.data.filter stripKeep)

/-- Normalization of line 51 of `app.py`:
`phone if phone.startswith('+44') else '+44' + phone[1:] if phone.startswith('0') else phone`,
written over the character list (`startswith('+44')` holds iff the data begins
with `'+','4','4'`; `'+44' + phone[1:]` drops the leading `'0'`). -/
def normalizePhone (s : String) : String :=
  match s.data with
  | '+' :: '4' :: '4' :: _ => s
  | '0' :: rest => String.mk ('+' :: '4' :: '4' :: rest)
  | _ => s

/-- The deduplicated, pre-normalization phone list of line 50:
`list(set([re.sub(r'[\s\-\(\)]', '', phone[0] + phone[1]) for phone in phones_raw]))`.
Python's `list(set(..))` removes duplicates in an unspecified order; it is
modelled by `List.dedup` (one fixed duplicate-free order). -/
def phonesPreNorm (text : String) : List String :=
  ((phoneFindAll text.data).map (fun pr => stripPhoneChars (pr.1 ++ pr.2))).dedup

/-- Function `extract_contacts` (lines 46-52 of `app.py`): deduplicated email matches,
and deduplicated stripped group-concatenations of the phone matches, each then
normalized by line 51. -/
def extract_contacts (text : String) : List String × List String :=
  ((emailFindAll text.data).dedup, (phonesPreNorm text).map normalizePhone)

/-!
Application-level model (`search_repositories`, `scrape_repository`,
`save_to_csv`, `main`).  Network and UI effects are shallowly embedded: the
results of the GitHub API calls a run observes are inputs (`SearchOutcome`,
`RepoEnv`), and each Streamlit call or sleep is an emitted `Effect`, so a run
of `main` denotes the list of its user-visible effects in program order.
-/

/-- The record appended by `search_repositories` (lines 69-73). -/
structure RepoInfo where
  name : String
  url : String
  description : String
  deriving DecidableEq

/-- The contact record of `scrape_repository` (lines 99, 101, 108, 110). -/
structure Contact where
  repo : String
  url : String
  email : String
  phone : String
  deriving DecidableEq

/-- Outcome of the `get_readme` block for one repository: content fetched and
decoded, a `GithubException` (caught by the inner handler, line 102), or any
other exception (propagating to the outer handler, line 112). -/
inductive ReadmeResult where
  | ok (content : String)
  | githubError
  | otherError
  deriving DecidableEq

/-- What the GitHub API does for one repository during `scrape_repository`:
whether `get_repo` (line 91) succeeds, and what the README block yields. -/
structure RepoEnv where
  getRepoOk : Bool
  readme : ReadmeResult
  deriving DecidableEq

/-- The append loops of lines 98-101 / 107-110: one record per extracted email
(with empty phone), then one per extracted phone (with empty email). -/
def contactsOf (repo : RepoInfo) (text : String) : List Contact :=
  ((extract_contacts text).1.map (fun e => ⟨repo.name, repo.url, e, ""⟩)) ++
    ((extract_contacts text).2.map (fun p => ⟨repo.name, repo.url, "", p⟩))

/-- Function `scrape_repository` (lines 86-115).  If `get_repo` raises, the outer
handler catches and the empty list is returned.  If the README block raises a
`GithubException`, the inner handler catches it before any append, and the
description is still scraped.  Any other exception in the README block reaches
the outer handler before any append, so the description is not scraped. -/
def scrape_repository (env : RepoEnv) (repo : RepoInfo) : List Contact :=
  if env.getRepoOk then
    match env.readme with
    | ReadmeResult.ok content => contactsOf repo content ++ contactsOf repo repo.description
    | ReadmeResult.githubError => contactsOf repo repo.description
    | ReadmeResult.otherError => []
  else []

/-- Outcome of the repository search call (lines 59-68): a result page with its
`totalCount`, or one of the three caught exception kinds (lines 75-83). -/
inductive SearchOutcome where
  | ok (totalCount : Nat) (page0 : List RepoInfo)
  | githubError (msg : String)
  | indexError
  | otherError (msg : String)
  deriving DecidableEq

/-- The first result page of a search outcome (empty for failures). -/
def firstPage : SearchOutcome → List RepoInfo
  | SearchOutcome.ok _ p => p
  | _ => []

/-- Function `search_repositories` (lines 54-84): empty on a falsy result or
`totalCount == 0` (line 62) and on every caught exception; otherwise the
records of `search_results.get_page(0)[:10]` (line 68). -/
def search_repositories (out : SearchOutcome) : List RepoInfo :=
  match out with
  | SearchOutcome.ok total page0 => if total = 0 then [] else page0.take 10
  | _ => []

/-- The CSV artifact: a header row and one row per record. -/
structure Csv where
  header : List String
  rows : List (List String)
  deriving DecidableEq

/-- Model of `pd.DataFrame(contacts)` for the uniform-key records built by
`scrape_repository`: the columns are the dict keys in insertion order
(`repo`, `url`, `email`, `phone`), one row per contact. -/
def contactsCsv (contacts : List Contact) : Csv :=
  ⟨["repo", "url", "email", "phone"],
    contacts.map (fun c => [c.repo, c.url, c.email, c.phone])⟩

/-- One user-visible effect of a run: a Streamlit UI call, a file write, a
GitHub search or per-repository scrape call, or a `time.sleep` (seconds). -/
inductive Effect where
  | title (s : String)
  | showError (s : String)
  | showMarkdown (s : String)
  | stop
  | textInput (label : String)
  | warning (s : String)
  | info (s : String)
  | search (query : String)
  | write (s : String)
  | sleep (seconds : Nat)
  | success (s : String)
  | writeFile (filename : String) (csv : Csv)
  | downloadButton (filename : String) (csv : Csv)
  | scrapeCall (repoName : String)
  deriving DecidableEq

/-- Function `save_to_csv` (lines 117-133): with a nonempty contact list it writes the
DataFrame to `github_contacts.csv`, reports success, and offers the same CSV as
a browser download; otherwise it only warns. -/
def save_to_csv (contacts : List Contact) : List Effect :=
  if contacts.isEmpty then [Effect.warning "No contacts found to save."]
  else
    [Effect.writeFile "github_contacts.csv" (contactsCsv contacts),
     Effect.success ("Saved " ++ toString contacts.length ++ " contacts to github_contacts.csv"),
     Effect.downloadButton "github_contacts.csv" (contactsCsv contacts)]

/-- Lines 180-183: one `st.write` per nonempty field of a displayed contact. -/
def contactEffects (c : Contact) : List Effect :=
  (if c.email = "" then [] else [Effect.write ("Email: " ++ c.email)]) ++
    (if c.phone = "" then [] else [Effect.write ("Mobile Phone: " ++ c.phone)])

/-- The effects of one iteration of the loop of lines 175-187: the repository
header, the scrape call, the per-contact writes (or the no-contacts message),
then `time.sleep(1)`. -/
def repoStep (p : RepoInfo × RepoEnv) : List Effect :=
  [Effect.showMarkdown ("### [" ++ p.1.name ++ "](" ++ p.1.url ++ ")"),
   Effect.scrapeCall p.1.name] ++
    (if (scrape_repository p.2 p.1).isEmpty then
      [Effect.write "No contacts found in this repository."]
    else (scrape_repository p.2 p.1).flatMap contactEffects) ++
    [Effect.sleep 1]

/-- The loop of lines 175-187 over the found repositories (each paired with
what the API does for it), returning the emitted effects and the accumulated
`all_contacts` (extended only when the scrape found something, line 178). -/
def loopRun : List (RepoInfo × RepoEnv) → List Effect × List Contact
  | [] => ([], [])
  | p :: ps =>
      ((repoStep p) ++ (loopRun ps).1,
        (if (scrape_repository p.2 p.1).isEmpty then [] else scrape_repository p.2 p.1) ++
          (loopRun ps).2)

/-- Query construction of lines 160-163. -/
def buildQuery (name company : String) : String :=
  ("\"" ++ name.trim ++ "\"" ++
    (if company.trim = "" then "" else " \"" ++ company.trim ++ "\"")) ++
    " in:readme in:description"

/-- The warning/error messages `search_repositories` shows (lines 64, 77, 80, 83). -/
def searchSideEffects (query : String) : SearchOutcome → List Effect
  | SearchOutcome.ok total _ =>
      if total = 0 then [Effect.warning ("No repositories found for query: " ++ query)] else []
  | SearchOutcome.githubError msg => [Effect.showError ("GitHub API error: " ++ msg)]
  | SearchOutcome.indexError =>
      [Effect.showError "Unexpected error processing search results. Please try a different query."]
  | SearchOutcome.otherError msg => [Effect.showError ("Unexpected error: " ++ msg)]

/-- Insert into a `le`-sorted list (model of Python `sorted` on strings). -/
def insertLe (le : String → String → Bool) (a : String) : List String → List String
  | [] => [a]
  | b :: bs => if le a b then a :: b :: bs else b :: insertLe le a bs

/-- Insertion sort with a boolean order. -/
def sortLe (le : String → String → Bool) : List String → List String
  | [] => []
  | a :: as' => insertLe le a (sortLe le as')

/-- Model of `sorted(set(...))`: deduplicate, then sort lexicographically. -/
def sortedUnique (l : List String) : List String :=
  sortLe (fun a b => !(compare a b == Ordering.gt)) l.dedup

/-- The summary writes of lines 191-196. -/
def summaryEffects (contacts : List Contact) : List Effect :=
  (let emails := sortedUnique ((contacts.filter (fun c => !(c.email = ""))).map Contact.email)
   if emails.isEmpty then [] else
     [Effect.write ("**Emails:** " ++ String.intercalate ", " emails)]) ++
    (let phones := sortedUnique ((contacts.filter (fun c => !(c.phone = ""))).map Contact.phone)
     if phones.isEmpty then [] else
       [Effect.write ("**Mobile Phones:** " ++ String.intercalate ", " phones)])

/-- The inputs a run of `main` observes: the configured token, whether the
token-validation call succeeds (and its error message if not), the two text
inputs, whether the button was pressed, the search call's outcome, and what the
API does for each found repository. -/
structure MainEnv where
  token : String
  tokenValid : Bool
  tokenErr : String
  name : String
  company : String
  buttonPressed : Bool
  searchOut : SearchOutcome
  repoEnvs : List RepoEnv
  deriving DecidableEq

/-- Function `main` (lines 135-199) as its list of effects in program order.
`st.stop()` and the early `return`s end the trace at the point they occur. -/
def mainRun (env : MainEnv) : List Effect :=
  [Effect.title "GitHub Contact Finder"] ++
    (if env.token = "" then
      [Effect.showError "GitHub API token not configured. Please add 'GITHUB_API_TOKEN' to Streamlit secrets.",
       Effect.showMarkdown "Generate a token at [GitHub Settings](https://github.com/settings/tokens) with 'repo' scope.",
       Effect.stop]
    else if !env.tokenValid then
      [Effect.showError ("Invalid GitHub API token: " ++ env.tokenErr),
       Effect.showMarkdown "Generate a new token at [GitHub Settings](https://github.com/settings/tokens) with 'repo' scope.",
       Effect.stop]
    else
      [Effect.textInput "Full Name (required)", Effect.textInput "Company (optional)"] ++
        (if !env.buttonPressed then []
        else if env.name.trim = "" then [Effect.warning "Please enter a full name."]
        else
          [Effect.info ("Searching GitHub for: " ++ buildQuery env.name env.company),
           Effect.search (buildQuery env.name env.company)] ++
            searchSideEffects (buildQuery env.name env.company) env.searchOut ++
            (if (search_repositories env.searchOut).isEmpty then
              [Effect.write "No repositories found for your query."]
            else
              [Effect.write ("Found " ++ toString (search_repositories env.searchOut).length ++
                " repositories. Extracting contacts...")] ++
                (loopRun ((search_repositories env.searchOut).zip env.repoEnvs)).1 ++
                (if (loopRun ((search_repositories env.searchOut).zip env.repoEnvs)).2.isEmpty then
                  [Effect.warning "No emails or mobile numbers found in the search results."]
                else
                  [Effect.success "Summary of unique contacts found:"] ++
                    summaryEffects (loopRun ((search_repositories env.searchOut).zip env.repoEnvs)).2 ++
                    save_to_csv (loopRun ((search_repositories env.searchOut).zip env.repoEnvs)).2))))

/-!
Soundness lemmas for the matcher: what a successful `matchSeq` says about the
consumed chunks.
-/

theorem firstSome_eq_some {α} {f : Nat → Option α} {l : List Nat} {a : α}
    (h : firstSome f l = some a) : ∃ n, n ∈ l ∧ f n = some a := by
  induction l with
  | nil => simp [firstSome] at h
  | cons n ns ih =>
    rw [firstSome] at h
    cases hf : f n with
    | some b =>
      simp only [hf] at h
      exact ⟨n, List.mem_cons_self n ns, by rw [hf, h]⟩
    | none =>
      simp only [hf] at h
      obtain ⟨m, hm, hfm⟩ := ih h
      exact ⟨m, List.mem_cons_of_mem n hm, hfm⟩

theorem matchSeq_cons {it : RItem} {rest : List RItem} {s : List Char} {out : List (List Char)}
    (h : matchSeq (it :: rest) s = some out) :
    ∃ n cks, n ∈ candidates it s ∧ matchSeq rest (s.drop n) = some cks ∧
      out = s.take n :: cks := by
  rw [matchSeq] at h
  obtain ⟨n, hn, hf⟩ := firstSome_eq_some h
  cases hm : matchSeq rest (s.drop n) with
  | none => rw [hm] at hf; simp at hf
  | some cks =>
    rw [hm] at hf
    simp at hf
    exact ⟨n, cks, hn, hm, hf.symm⟩

theorem matchSeq_lit {c : Char} {rest : List RItem} {s : List Char} {out : List (List Char)}
    (h : matchSeq (RItem.lit c :: rest) s = some out) :
    ∃ s' cks, s = c :: s' ∧ out = [c] :: cks ∧ matchSeq rest s' = some cks := by
  obtain ⟨n, cks, hn, hm, ho⟩ := matchSeq_cons h
  cases s with
  | nil => simp [candidates] at hn
  | cons c' s' =>
    by_cases hc : c' = c
    · subst hc
      simp [candidates] at hn
      subst hn
      exact ⟨s', cks, rfl, by simpa using ho, by simpa using hm⟩
    · simp [candidates, hc] at hn

theorem matchSeq_cls {p : Char → Bool} {rest : List RItem} {s : List Char} {out : List (List Char)}
    (h : matchSeq (RItem.cls p :: rest) s = some out) :
    ∃ c s' cks, s = c :: s' ∧ p c = true ∧ out = [c] :: cks ∧ matchSeq rest s' = some cks := by
  obtain ⟨n, cks, hn, hm, ho⟩ := matchSeq_cons h
  cases s with
  | nil => simp [candidates] at hn
  | cons c s' =>
    by_cases hp : p c
    · simp [candidates, hp] at hn
      subst hn
      exact ⟨c, s', cks, rfl, hp, by simpa using ho, by simpa using hm⟩
    · simp [candidates, hp] at hn

theorem matchSeq_opt {p : Char → Bool} {rest : List RItem} {s : List Char} {out : List (List Char)}
    (h : matchSeq (RItem.opt p :: rest) s = some out) :
    ∃ ck s' cks, s = ck ++ s' ∧ out = ck :: cks ∧ matchSeq rest s' = some cks ∧
      (ck = [] ∨ ∃ c, ck = [c] ∧ p c = true) := by
  obtain ⟨n, cks, hn, hm, ho⟩ := matchSeq_cons h
  refine ⟨s.take n, s.drop n, cks, (List.take_append_drop n s).symm, ho, hm, ?_⟩
  cases s with
  | nil =>
    simp [candidates] at hn
    subst hn
    exact Or.inl rfl
  | cons c s' =>
    by_cases hp : p c
    · simp [candidates, hp] at hn
      rcases hn with hn | hn <;> subst hn
      · exact Or.inr ⟨c, rfl, hp⟩
      · exact Or.inl rfl
    · simp [candidates, hp] at hn
      subst hn
      exact Or.inl rfl

theorem runLen_le_length {p : Char → Bool} : ∀ s : List Char, runLen p s ≤ s.length
  | [] => Nat.le_refl 0
  | c :: cs => by
    rw [runLen]
    split
    · exact Nat.succ_le_succ (runLen_le_length cs)
    · exact Nat.zero_le _

theorem take_all_of_le_runLen {p : Char → Bool} :
    ∀ (s : List Char) (n : Nat), n ≤ runLen p s → (s.take n).all p = true := by
  intro s
  induction s with
  | nil =>
    intro n hn
    simp [runLen] at hn
    simp [hn]
  | cons c cs ih =>
    intro n hn
    rw [runLen] at hn
    by_cases hp : p c
    · rw [if_pos hp] at hn
      cases n with
      | zero => simp
      | succ m =>
        rw [List.take_succ_cons, List.all_cons, hp, Bool.true_and]
        exact ih m (Nat.le_of_succ_le_succ hn)
    · rw [if_neg hp] at hn
      have h0 : n = 0 := Nat.le_zero.mp hn
      subst h0
      simp

theorem repTop_le_runLen (p : Char → Bool) (hi : Option Nat) (s : List Char) :
    (match hi with | some m => min m (runLen p s) | none => runLen p s) ≤ runLen p s := by
  cases hi with
  | none => exact Nat.le_refl _
  | some m => exact Nat.min_le_right m (runLen p s)

theorem matchSeq_rep {p : Char → Bool} {lo : Nat} {hi : Option Nat} {rest : List RItem}
    {s : List Char} {out : List (List Char)}
    (h : matchSeq (RItem.rep p lo hi :: rest) s = some out) :
    ∃ ck s' cks, s = ck ++ s' ∧ out = ck :: cks ∧ matchSeq rest s' = some cks ∧
      lo ≤ ck.length ∧ ck.all p = true := by
  obtain ⟨n, cks, hn, hm, ho⟩ := matchSeq_cons h
  have hb : lo ≤ n ∧ n ≤ runLen p s := by
    simp only [candidates] at hn
    split at hn
    · simp at hn
    · rename_i htop
      obtain ⟨k, hk, hkn⟩ := List.mem_map.mp hn
      rw [List.mem_range] at hk
      have := repTop_le_runLen p hi s
      omega
  have hlen : n ≤ s.length := Nat.le_trans hb.2 (runLen_le_length s)
  refine ⟨s.take n, s.drop n, cks, (List.take_append_drop n s).symm, ho, hm, ?_, ?_⟩
  · rw [List.length_take]
    omega
  · exact take_all_of_le_runLen s n hb.2

/-- Membership in a fuelled scan comes from a successful match somewhere. -/
theorem mem_scanAllF {α} {f : List Char → Option (α × Nat)} {fuel : Nat} {s : List Char} {a : α}
    (h : a ∈ scanAllF f fuel s) : ∃ t n, f t = some (a, n) := by
  induction fuel generalizing s with
  | zero => simp [scanAllF] at h
  | succ m ih =>
    cases s with
    | nil => simp [scanAllF] at h
    | cons c cs =>
      rw [scanAllF] at h
      cases hf : f (c :: cs) with
      | none =>
        simp only [hf] at h
        exact ih h
      | some pr =>
        obtain ⟨a', n⟩ := pr
        simp only [hf] at h
        rcases List.mem_cons.mp h with h1 | h2
        · exact ⟨c :: cs, n, by rw [hf, h1]⟩
        · exact ih h2

theorem mem_scanAll {α} {f : List Char → Option (α × Nat)} {s : List Char} {a : α}
    (h : a ∈ scanAll f s) : ∃ t n, f t = some (a, n) :=
  mem_scanAllF h

/-!
Shape of the extracted phone values: every phone produced by
`extract_contacts` is the six characters `+447` followed by two digits.
-/

theorem stripKeep_of_digit {c : Char} (h : isDigitChar c = true) : stripKeep c = true := by
  simp only [isDigitChar, decide_eq_true_eq] at h
  simp only [stripKeep, isSpaceAscii, Bool.not_eq_true', Bool.or_eq_false_iff,
    decide_eq_false_iff_not]
  omega

theorem stripKeep_of_space {c : Char} (h : isSpaceAscii c = true) : stripKeep c = false := by
  simp [stripKeep, h]

theorem mk_append_data (l₁ l₂ : List Char) : (String.mk l₁ ++ String.mk l₂).data = l₁ ++ l₂ := rfl

theorem phoneMatchAt_shape {s : List Char} {g1 g2 : String} {L : Nat}
    (h : phoneMatchAt s = some ((g1, g2), L)) :
    ∃ d₁ d₂, isDigitChar d₁ = true ∧ isDigitChar d₂ = true ∧
      (normalizePhone (stripPhoneChars (g1 ++ g2))).data = ['+', '4', '4', '7', d₁, d₂] := by
  rw [phoneMatchAt] at h
  cases hA : matchSeq phoneItemsA s with
  | some cks =>
    simp only [hA, Option.some.injEq, Prod.mk.injEq] at h
    obtain ⟨⟨hg1, hg2⟩, -⟩ := h
    simp only [phoneItemsA] at hA
    obtain ⟨s₁, c₁, rfl, rfl, h₁⟩ := matchSeq_lit hA
    obtain ⟨s₂, c₂, rfl, rfl, h₂⟩ := matchSeq_lit h₁
    obtain ⟨s₃, c₃, rfl, rfl, h₃⟩ := matchSeq_lit h₂
    obtain ⟨ck₃, s₄, c₄, hs₃, rfl, h₄, hck₃⟩ := matchSeq_opt h₃
    obtain ⟨ck₄, s₅, c₅, hs₄, rfl, h₅, -⟩ := matchSeq_opt h₄
    obtain ⟨s₆, c₆, rfl, rfl, h₆⟩ := matchSeq_lit h₅
    obtain ⟨d₁, s₇, c₇, rfl, hd₁, rfl, h₇⟩ := matchSeq_cls h₆
    obtain ⟨d₂, s₈, c₈, rfl, hd₂, rfl, -⟩ := matchSeq_cls h₇
    refine ⟨d₁, d₂, hd₁, hd₂, ?_⟩
    subst hg1 hg2
    simp only [List.take, List.drop, List.flatten, mk_append_data]
    rcases hck₃ with rfl | ⟨c, rfl, hc⟩
    · simp only [stripPhoneChars]
      simp only [List.append_nil, List.nil_append, List.filter, stripKeep_of_digit hd₁,
        stripKeep_of_digit hd₂, show stripKeep '+' = true from by decide,
        show stripKeep '4' = true from by decide, show stripKeep '7' = true from by decide]
      rfl
    · simp only [stripPhoneChars]
      simp only [List.cons_append, List.nil_append, List.append_nil, List.filter,
        stripKeep_of_digit hd₁, stripKeep_of_digit hd₂, stripKeep_of_space hc,
        show stripKeep '+' = true from by decide, show stripKeep '4' = true from by decide,
        show stripKeep '7' = true from by decide]
      rfl
  | none =>
    rw [hA] at h
    cases hB : matchSeq phoneItemsB s with
    | none => rw [hB] at h; simp at h
    | some cks =>
      simp only [hB, Option.some.injEq, Prod.mk.injEq] at h
      obtain ⟨⟨hg1, hg2⟩, -⟩ := h
      simp only [phoneItemsB] at hB
      obtain ⟨s₁, c₁, rfl, rfl, h₁⟩ := matchSeq_lit hB
      obtain ⟨ck₁, s₂, c₂, hs₁, rfl, h₂, -⟩ := matchSeq_opt h₁
      obtain ⟨s₃, c₃, rfl, rfl, h₃⟩ := matchSeq_lit h₂
      obtain ⟨d₁, s₄, c₄, rfl, hd₁, rfl, h₄⟩ := matchSeq_cls h₃
      obtain ⟨d₂, s₅, c₅, rfl, hd₂, rfl, -⟩ := matchSeq_cls h₄
      refine ⟨d₁, d₂, hd₁, hd₂, ?_⟩
      subst hg1 hg2
      simp only [List.take, List.drop, List.flatten, mk_append_data]
      simp only [stripPhoneChars]
      simp only [List.cons_append, List.nil_append, List.append_nil, List.filter,
        stripKeep_of_digit hd₁, stripKeep_of_digit hd₂,
        show stripKeep '0' = true from by decide, show stripKeep '7' = true from by decide]
      rfl

/-- Every phone string returned by `extract_contacts` is `+447` plus two digits. -/
theorem extract_phones_shape {text ph : String} (h : ph ∈ (extract_contacts text).2) :
    ∃ d₁ d₂, isDigitChar d₁ = true ∧ isDigitChar d₂ = true ∧
      ph.data = ['+', '4', '4', '7', d₁, d₂] := by
  simp only [extract_contacts] at h
  obtain ⟨x, hx, rfl⟩ := List.mem_map.mp h
  simp only [phonesPreNorm] at hx
  obtain ⟨pr, hpr, rfl⟩ := List.mem_map.mp (List.mem_dedup.mp hx)
  obtain ⟨t, n, hf⟩ := mem_scanAll hpr
  exact phoneMatchAt_shape (show phoneMatchAt t = some ((pr.1, pr.2), n) from hf)

/-- Every string returned by `re.findall(EMAIL_REGEX, ..)` is nonempty (the
local part consumes at least one character). -/
theorem emailFindAll_ne_empty {s : List Char} {e : String} (h : e ∈ emailFindAll s) :
    e ≠ "" := by
  obtain ⟨t, n, hf⟩ := mem_scanAll h
  rw [emailMatchAt] at hf
  cases hm : matchSeq emailItems t with
  | none => rw [hm] at hf; simp at hf
  | some cks =>
    rw [hm] at hf
    simp only [Option.map_some', Option.some.injEq, Prod.mk.injEq] at hf
    obtain ⟨he, -⟩ := hf
    simp only [emailItems] at hm
    obtain ⟨ck, s', cks', -, rfl, -, hlo, -⟩ := matchSeq_rep hm
    intro hcontra
    have hdata : (String.mk ((ck :: cks').flatten)).data = [] := by rw [he, hcontra]
    simp only [List.flatten_cons] at hdata
    have : ck = [] := by
      have := List.append_eq_nil.mp hdata
      exact this.1
    rw [this] at hlo
    simp at hlo

/-- Fields of a record built by the append loops: the source repository's name
and url, and exactly one nonempty contact field. -/
theorem contactsOf_mem {repo : RepoInfo} {t : String} {c : Contact}
    (h : c ∈ contactsOf repo t) :
    c.repo = repo.name ∧ c.url = repo.url ∧
      ((c.email ≠ "" ∧ c.phone = "") ∨ (c.email = "" ∧ c.phone ≠ "")) := by
  simp only [contactsOf] at h
  rcases List.mem_append.mp h with h | h
  · obtain ⟨e, he, rfl⟩ := List.mem_map.mp h
    refine ⟨rfl, rfl, Or.inl ⟨?_, rfl⟩⟩
    simp only [extract_contacts] at he
    exact emailFindAll_ne_empty (List.mem_dedup.mp he)
  · obtain ⟨p, hp, rfl⟩ := List.mem_map.mp h
    obtain ⟨d₁, d₂, -, -, hd⟩ := extract_phones_shape hp
    have hpne : p ≠ "" := by
      intro hc
      have hnil : p.data = [] := by rw [hc]
      rw [hnil] at hd
      simp at hd
    exact ⟨rfl, rfl, Or.inr ⟨rfl, hpne⟩⟩

/-!
Claim theorems.
-/

/-- Claim C1 (code bug evaluation): on a text with a known email and a known
UK mobile number, the code returns the full email but only the truncated
6-character phone value, not the full normalized number `+447123456789` the
claim expects: `re.findall` on PHONE_REGEX returns only the two capture
groups (`0`, `712`), so the trailing digits of the match are discarded. -/
theorem extract_truncates_c1 :
    extract_contacts "Email john@example.com, phone 07123456789." =
      (["john@example.com"], ["+44712"]) := by decide

/-- Claim C2 (code bug evaluation): for the eleven-digit mobile number
`07123456789` the returned phone string is the six characters `+44712`,
which is not in the `07xxxxxxxxx` / `+447xxxxxxxxx` pattern family. -/
theorem phone_not_full_number_c2 :
    extract_contacts "07123456789" = ([], ["+44712"]) := by decide

/-- Claim C3 counterexample: when the same number occurs in both its `0...`
and `+44...` spellings, deduplication (which runs before normalization)
keeps both, and normalization maps them to the same string, so the returned
phones list contains a duplicate. -/
theorem phones_duplicate_counterexample_c3 :
    ¬ (extract_contacts "07123456789 +447123456789").2.Nodup := by decide

/-- Claim C3 (amended): the emails list is always duplicate-free, and the
phone matches are deduplicated before normalization (the pre-normalization
list is duplicate-free); the returned phones list itself may contain
duplicates after normalization. -/
theorem extract_dedup_c3 (text : String) :
    (extract_contacts text).1.Nodup ∧ (phonesPreNorm text).Nodup := by
  constructor
  · simp only [extract_contacts]
    exact List.nodup_dedup _
  · simp only [phonesPreNorm]
    exact List.nodup_dedup _

/-- Claim C8: `search_repositories` returns at most 10 repository records,
and they are taken from the first result page (`get_page(0)[:10]`). -/
theorem search_results_bounded_c8 (out : SearchOutcome) :
    (search_repositories out).length ≤ 10 ∧
      (search_repositories out = (firstPage out).take 10 ∨ search_repositories out = []) := by
  cases out with
  | ok total page0 =>
    by_cases ht : total = 0
    · simp [search_repositories, firstPage, ht]
    · constructor
      · simp only [search_repositories, if_neg ht]
        exact List.length_take_le 10 page0
      · left
        simp [search_repositories, firstPage, ht]
  | githubError msg => simp [search_repositories, firstPage]
  | indexError => simp [search_repositories, firstPage]
  | otherError msg => simp [search_repositories, firstPage]

/-- Claim C9: every contact record produced by `scrape_repository` carries the
scraped repository's name and url, and exactly one of its `email` and `phone`
fields is nonempty. -/
theorem scrape_contact_invariant_c9 (env : RepoEnv) (repo : RepoInfo) (c : Contact)
    (h : c ∈ scrape_repository env repo) :
    c.repo = repo.name ∧ c.url = repo.url ∧
      ((c.email ≠ "" ∧ c.phone = "") ∨ (c.email = "" ∧ c.phone ≠ "")) := by
  rw [scrape_repository] at h
  by_cases hg : env.getRepoOk = true
  · rw [if_pos hg] at h
    cases hr : env.readme with
    | ok content =>
      rw [hr] at h
      rcases List.mem_append.mp h with h | h <;> exact contactsOf_mem h
    | githubError =>
      rw [hr] at h
      exact contactsOf_mem h
    | otherError =>
      rw [hr] at h
      simp at h
  · rw [if_neg hg] at h
    simp at h

/-- Claim C9 witness: a concrete record produced from a repository description. -/
theorem scrape_contact_invariant_c9_witness :
    ((⟨"octo/repo", "https://github.com/octo/repo", "a@b.cc", ""⟩ : Contact) ∈
      scrape_repository (RepoEnv.mk true ReadmeResult.githubError)
        (RepoInfo.mk "octo/repo" "https://github.com/octo/repo" "contact a@b.cc")) ∧
    ((⟨"octo/repo", "https://github.com/octo/repo", "a@b.cc", ""⟩ : Contact).repo =
        (RepoInfo.mk "octo/repo" "https://github.com/octo/repo" "contact a@b.cc").name ∧
      (⟨"octo/repo", "https://github.com/octo/repo", "a@b.cc", ""⟩ : Contact).url =
        (RepoInfo.mk "octo/repo" "https://github.com/octo/repo" "contact a@b.cc").url ∧
      (((⟨"octo/repo", "https://github.com/octo/repo", "a@b.cc", ""⟩ : Contact).email ≠ "" ∧
          (⟨"octo/repo", "https://github.com/octo/repo", "a@b.cc", ""⟩ : Contact).phone = "") ∨
        ((⟨"octo/repo", "https://github.com/octo/repo", "a@b.cc", ""⟩ : Contact).email = "" ∧
          (⟨"octo/repo", "https://github.com/octo/repo", "a@b.cc", ""⟩ : Contact).phone ≠ ""))) :=
  ⟨by decide,
    scrape_contact_invariant_c9 (RepoEnv.mk true ReadmeResult.githubError)
      (RepoInfo.mk "octo/repo" "https://github.com/octo/repo" "contact a@b.cc")
      (Contact.mk "octo/repo" "https://github.com/octo/repo" "a@b.cc" "") (by decide)⟩

/-- Claim C10: every phone string returned by `extract_contacts` has exactly
6 characters: `+44` then `7` then two digits; the remaining digits of the
matched number are not part of the returned string. -/
theorem extract_phone_six_chars_c10 (text ph : String) (h : ph ∈ (extract_contacts text).2) :
    ph.length = 6 ∧ ∃ d₁ d₂, isDigitChar d₁ = true ∧ isDigitChar d₂ = true ∧
      ph.data = ['+', '4', '4', '7', d₁, d₂] := by
  obtain ⟨d₁, d₂, h1, h2, h3⟩ := extract_phones_shape h
  refine ⟨?_, d₁, d₂, h1, h2, h3⟩
  have : ph.length = ph.data.length := rfl
  rw [this, h3]
  rfl

/-- Claim C10 witness: the phone extracted from `07123456789`. -/
theorem extract_phone_six_chars_c10_witness :
    ("+44712" ∈ (extract_contacts "07123456789").2) ∧
      (("+44712" : String).length = 6 ∧
        ∃ d₁ d₂, isDigitChar d₁ = true ∧ isDigitChar d₂ = true ∧
          ("+44712" : String).data = ['+', '4', '4', '7', d₁, d₂]) :=
  ⟨by decide, extract_phone_six_chars_c10 "07123456789" "+44712" (by decide)⟩

/-!
Loop and main-flow claims.
-/

theorem loopRun_append (xs ys : List (RepoInfo × RepoEnv)) :
    loopRun (xs ++ ys) =
      ((loopRun xs).1 ++ (loopRun ys).1, (loopRun xs).2 ++ (loopRun ys).2) := by
  induction xs with
  | nil => simp [loopRun]
  | cons p ps ih => simp [loopRun, ih]

theorem sleep_notin_contactEffects (c : Contact) (n : Nat) :
    Effect.sleep n ∉ contactEffects c := by
  intro h
  rw [contactEffects] at h
  rcases List.mem_append.mp h with h | h <;> split at h <;> simp at h

/-- Claim C4: a repository whose fetch fails yields no contacts, and the loop
over `repos₁ ++ [badRepo] ++ repos₂` still processes every other repository
exactly once, accumulating exactly their contacts; the failed item only
contributes its header/no-contacts/sleep effects. -/
theorem scrape_failure_skips_c4 (repos₁ repos₂ : List RepoInfo) (envs₁ envs₂ : List RepoEnv)
    (badRepo : RepoInfo) (badEnv : RepoEnv)
    (hlen : repos₁.length = envs₁.length) (hbad : badEnv.getRepoOk = false) :
    scrape_repository badEnv badRepo = [] ∧
    loopRun ((repos₁ ++ badRepo :: repos₂).zip (envs₁ ++ badEnv :: envs₂)) =
      ((loopRun (repos₁.zip envs₁)).1 ++
          (repoStep (badRepo, badEnv) ++ (loopRun (repos₂.zip envs₂)).1),
        (loopRun (repos₁.zip envs₁)).2 ++ (loopRun (repos₂.zip envs₂)).2) := by
  have hscrape : scrape_repository badEnv badRepo = [] := by
    rw [scrape_repository, if_neg]
    rw [hbad]
    simp
  refine ⟨hscrape, ?_⟩
  rw [List.zip_append hlen, List.zip_cons_cons, loopRun_append]
  simp [loopRun, hscrape]

/-- Claim C4 witness: one successful repository before the failing one. -/
theorem scrape_failure_skips_c4_witness :
    ([RepoInfo.mk "a/r1" "u1" "d1"].length = [RepoEnv.mk true ReadmeResult.githubError].length) ∧
    ((RepoEnv.mk false ReadmeResult.githubError).getRepoOk = false) ∧
    (scrape_repository (RepoEnv.mk false ReadmeResult.githubError) (RepoInfo.mk "b/r2" "u2" "d2") = [] ∧
      loopRun (([RepoInfo.mk "a/r1" "u1" "d1"] ++ RepoInfo.mk "b/r2" "u2" "d2" :: []).zip
          ([RepoEnv.mk true ReadmeResult.githubError] ++ RepoEnv.mk false ReadmeResult.githubError :: [])) =
        ((loopRun ([RepoInfo.mk "a/r1" "u1" "d1"].zip [RepoEnv.mk true ReadmeResult.githubError])).1 ++
            (repoStep (RepoInfo.mk "b/r2" "u2" "d2", RepoEnv.mk false ReadmeResult.githubError) ++
              (loopRun (([] : List RepoInfo).zip ([] : List RepoEnv))).1),
          (loopRun ([RepoInfo.mk "a/r1" "u1" "d1"].zip [RepoEnv.mk true ReadmeResult.githubError])).2 ++
            (loopRun (([] : List RepoInfo).zip ([] : List RepoEnv))).2)) :=
  ⟨rfl, rfl,
    scrape_failure_skips_c4 [RepoInfo.mk "a/r1" "u1" "d1"] [] [RepoEnv.mk true ReadmeResult.githubError] []
      (RepoInfo.mk "b/r2" "u2" "d2") (RepoEnv.mk false ReadmeResult.githubError) rfl rfl⟩

/-- Claim C5: with an empty GITHUB_API_TOKEN, `main` shows the user-facing
error and stops; no search call and no scrape call occurs. -/
theorem missing_token_halts_c5 (env : MainEnv) (h : env.token = "") :
    mainRun env =
      [Effect.title "GitHub Contact Finder",
       Effect.showError "GitHub API token not configured. Please add 'GITHUB_API_TOKEN' to Streamlit secrets.",
       Effect.showMarkdown "Generate a token at [GitHub Settings](https://github.com/settings/tokens) with 'repo' scope.",
       Effect.stop] ∧
    (∀ q, Effect.search q ∉ mainRun env) ∧ (∀ r, Effect.scrapeCall r ∉ mainRun env) := by
  have heq : mainRun env =
      [Effect.title "GitHub Contact Finder",
       Effect.showError "GitHub API token not configured. Please add 'GITHUB_API_TOKEN' to Streamlit secrets.",
       Effect.showMarkdown "Generate a token at [GitHub Settings](https://github.com/settings/tokens) with 'repo' scope.",
       Effect.stop] := by
    rw [mainRun, if_pos h]
    rfl
  refine ⟨heq, ?_, ?_⟩ <;> intro x <;> rw [heq] <;> simp

/-- Claim C5 witness: a concrete environment with an empty token. -/
theorem missing_token_halts_c5_witness :
    ((MainEnv.mk "" true "" "" "" false (SearchOutcome.ok 0 []) []).token = "") ∧
    (mainRun (MainEnv.mk "" true "" "" "" false (SearchOutcome.ok 0 []) []) =
      [Effect.title "GitHub Contact Finder",
       Effect.showError "GitHub API token not configured. Please add 'GITHUB_API_TOKEN' to Streamlit secrets.",
       Effect.showMarkdown "Generate a token at [GitHub Settings](https://github.com/settings/tokens) with 'repo' scope.",
       Effect.stop] ∧
    (∀ q, Effect.search q ∉ mainRun (MainEnv.mk "" true "" "" "" false (SearchOutcome.ok 0 []) [])) ∧
    (∀ r, Effect.scrapeCall r ∉ mainRun (MainEnv.mk "" true "" "" "" false (SearchOutcome.ok 0 []) []))) :=
  ⟨rfl, missing_token_halts_c5 (MainEnv.mk "" true "" "" "" false (SearchOutcome.ok 0 []) []) rfl⟩

/-- Claim C6 counterexample: the CSV built from a contact record has no
`title` column (its columns are `repo`, `url`, `email`, `phone`). -/
theorem csv_no_title_column_c6 :
    "title" ∉ (contactsCsv [Contact.mk "octo/repo" "https://github.com/octo/repo" "a@b.cc" ""]).header := by
  decide

/-- Claim C6 (amended): with at least one extracted contact, `save_to_csv`
writes the CSV file with columns `repo`, `url`, `email`, `phone` and offers
the same CSV as a browser download. -/
theorem save_to_csv_columns_c6 (contacts : List Contact) (h : contacts ≠ []) :
    save_to_csv contacts =
      [Effect.writeFile "github_contacts.csv" (contactsCsv contacts),
       Effect.success ("Saved " ++ toString contacts.length ++ " contacts to github_contacts.csv"),
       Effect.downloadButton "github_contacts.csv" (contactsCsv contacts)] ∧
    (contactsCsv contacts).header = ["repo", "url", "email", "phone"] := by
  constructor
  · rw [save_to_csv, if_neg]
    simp [List.isEmpty_iff, h]
  · rfl

/-- Claim C6 witness: one concrete contact record. -/
theorem save_to_csv_columns_c6_witness :
    (([Contact.mk "octo/repo" "https://github.com/octo/repo" "a@b.cc" ""] : List Contact) ≠ []) ∧
    (save_to_csv [Contact.mk "octo/repo" "https://github.com/octo/repo" "a@b.cc" ""] =
      [Effect.writeFile "github_contacts.csv"
        (contactsCsv [Contact.mk "octo/repo" "https://github.com/octo/repo" "a@b.cc" ""]),
       Effect.success ("Saved " ++
        toString ([Contact.mk "octo/repo" "https://github.com/octo/repo" "a@b.cc" ""] : List Contact).length ++
        " contacts to github_contacts.csv"),
       Effect.downloadButton "github_contacts.csv"
        (contactsCsv [Contact.mk "octo/repo" "https://github.com/octo/repo" "a@b.cc" ""])] ∧
    (contactsCsv [Contact.mk "octo/repo" "https://github.com/octo/repo" "a@b.cc" ""]).header =
      ["repo", "url", "email", "phone"]) :=
  ⟨by decide,
    save_to_csv_columns_c6 [Contact.mk "octo/repo" "https://github.com/octo/repo" "a@b.cc" ""] (by decide)⟩

/-- Claim C7: the loop's effect trace is the sequential concatenation, in
order, of each repository's step, and each step ends with exactly one
`time.sleep(1)` (no sleep occurs elsewhere in a step), so a fixed one-second
delay separates consecutive repositories. -/
theorem loop_sequential_sleep_c7 (ps : List (RepoInfo × RepoEnv)) :
    (loopRun ps).1 = ps.flatMap repoStep ∧
      ∀ p ∈ ps, ∃ effs, repoStep p = effs ++ [Effect.sleep 1] ∧ Effect.sleep 1 ∉ effs := by
  constructor
  · induction ps with
    | nil => simp [loopRun]
    | cons p ps ih => simp [loopRun, ih]
  · intro p _
    refine ⟨[Effect.showMarkdown ("### [" ++ p.1.name ++ "](" ++ p.1.url ++ ")"),
      Effect.scrapeCall p.1.name] ++
        (if (scrape_repository p.2 p.1).isEmpty then
          [Effect.write "No contacts found in this repository."]
        else (scrape_repository p.2 p.1).flatMap contactEffects), ?_, ?_⟩
    · rw [repoStep]
    · intro hmem
      rcases List.mem_append.mp hmem with h | h
      · simp at h
      · split at h
        · simp at h
        · obtain ⟨c, -, hc⟩ := List.mem_flatMap.mp h
          exact sleep_notin_contactEffects c 1 hc

/-- Claim C7 witness: a singleton repository list. -/
theorem loop_sequential_sleep_c7_witness :
    (loopRun [(RepoInfo.mk "r" "u" "d", RepoEnv.mk true ReadmeResult.githubError)]).1 =
      [(RepoInfo.mk "r" "u" "d", RepoEnv.mk true ReadmeResult.githubError)].flatMap repoStep ∧
    ∀ p ∈ [(RepoInfo.mk "r" "u" "d", RepoEnv.mk true ReadmeResult.githubError)],
      ∃ effs, repoStep p = effs ++ [Effect.sleep 1] ∧ Effect.sleep 1 ∉ effs :=
  loop_sequential_sleep_c7 [(RepoInfo.mk "r" "u" "d", RepoEnv.mk true ReadmeResult.githubError)]
